import Mathlib

/-!
Shallow embedding of the Flask expense-tracker REST API (`app.py`) over its
SQLite `expenses` table.

The store is the single table created by `init_db`:
  `CREATE TABLE expenses (id INTEGER PRIMARY KEY AUTOINCREMENT,
    title TEXT NOT NULL, category TEXT NOT NULL, amount REAL NOT NULL,
    date TEXT NOT NULL)`.
A database state is the list of rows plus the AUTOINCREMENT counter (the next
rowid SQLite will assign; AUTOINCREMENT never reuses ids, and `DELETE` does not
reset the sequence).  REAL amounts are modelled as rationals; `date` is a TEXT
column compared by SQLite with byte-wise (memcmp) comparison, which on UTF-8
coincides with code-point lexicographic order, i.e. Lean's `String` order.

Each HTTP handler of `app.py` becomes a pure function from the request data and
the database state to a response paired with the new state.  Request bodies are
the result of `request.get_json()`: `none` models a missing/empty body
(`if not data`), and each field is `Option`-valued (`data.get(...)`).  The
`amount` field of a JSON body can be a number, a string that `float()` parses,
a string that `float()` rejects (`ValueError`), or a value of another JSON type
such as a list, on which `float()` raises `TypeError` — which the handlers'
`except ValueError` does NOT catch, so it falls through to the generic
`except Exception` handler and produces a 500 response.
-/

namespace ExpenseTracker

/-- One row of the `expenses` table. -/
structure Expense where
  id : Nat
  title : String
  category : String
  amount : ℚ
  date : String
deriving DecidableEq

/-- The database state: the rows of the `expenses` table together with the
AUTOINCREMENT counter (the id the next `INSERT` will be assigned). -/
structure DB where
  rows : List Expense
  nextId : Nat
deriving DecidableEq

/-- The state of a freshly initialised database (`init_db`): no rows, and
SQLite AUTOINCREMENT assigns 1 to the first inserted row. -/
def DB.empty : DB := ⟨[], 1⟩

/-- An HTTP response as produced by the handlers: either
`jsonify(value), status` or `jsonify(\x7berror: msg\x7d), status`. -/
inductive ApiResp (α : Type) where
  | ok (status : Nat) (value : α)
  | err (status : Nat) (msg : String)
deriving DecidableEq

/-- The HTTP status code of a response. -/
def ApiResp.status {α : Type} : ApiResp α → Nat
  | .ok s _ => s
  | .err s _ => s

/-- Whether a response is a 400-class (client) error carrying a non-empty,
human-readable message. -/
def ApiResp.clientError {α : Type} : ApiResp α → Bool
  | .ok _ _ => false
  | .err s m => 400 ≤ s && s < 500 && !m.isEmpty

/-- The value carried by the `amount` field of a JSON request body, bucketed
by how Python's `float(amount)` treats it:
`num q` is a JSON number (or boolean — `float` accepts those too) whose value
is `q`; `numStr q` is a JSON string that `float` parses to the finite value
`q`; `badStr` is a string `float` rejects with `ValueError` (e.g. `"abc"`);
`other` is any other JSON type (list, object), on which `float` raises
`TypeError`. -/
inductive AmountVal where
  | num (q : ℚ)
  | numStr (q : ℚ)
  | badStr
  | other
deriving DecidableEq

/-- The exception Python's `float()` raises on a non-numeric argument. -/
inductive PyFloatErr where
  | valueError
  | typeError
deriving DecidableEq

/-- Python's `float(amount)`. -/
def parseAmount : AmountVal → Except PyFloatErr ℚ
  | .num q => .ok q
  | .numStr q => .ok q
  | .badStr => .error .valueError
  | .other => .error .typeError

/-- A parsed JSON request body for the create/update endpoints, as read by
`data.get('title')`, `data.get('category')`, `data.get('amount')`,
`data.get('date', ...)`.  A `none` field models an absent key; for `title`,
`category` and `amount` a key bound to JSON `null` behaves the same, since
`data.get` returns Python `None` either way and validation rejects it.  (A
`date` key bound to JSON `null` is outside the model: the insert would then
violate the column's NOT NULL constraint and be answered 500.)  The update
handler ignores `date`. -/
structure ReqBody where
  title : Option String
  category : Option String
  amount : Option AmountVal
  date : Option String
deriving DecidableEq

/-- Python truthiness test `not title` on an optional string field:
true when the field is absent (`None`) or the empty string. -/
def blank : Option String → Bool
  | none => true
  | some s => s.isEmpty

/-- `SELECT * FROM expenses WHERE id = ?` followed by `fetchone()`:
the first row with the given id, if any. -/
def findById (rows : List Expense) (eid : Nat) : Option Expense :=
  rows.find? (fun e => e.id == eid)

/-- The `POST /api/expenses` handler `add_expense`.
`now` is `datetime.now().isoformat()`, the default used when the body has no
`date` key.  Validation: missing body → 400; missing/empty `title` or
`category` or missing `amount` → 400; `float(amount)` raising `ValueError` →
400 (`TypeError` propagates to the generic handler → 500); `amount <= 0` →
400.  Otherwise the row is inserted with the freshly assigned id and the
created record is echoed with status 201. -/
def addExpense (body : Option ReqBody) (now : String) (db : DB) :
    ApiResp Expense × DB :=
  match body with
  | none => (.err 400 "No data provided", db)
  | some data =>
    let date := data.date.getD now
    if blank data.title || blank data.category then
      (.err 400 "Missing required fields: title, category, amount", db)
    else
      match data.amount with
      | none => (.err 400 "Missing required fields: title, category, amount", db)
      | some av =>
        match parseAmount av with
        | .error .typeError =>
            (.err 500 "float() argument must be a string or a real number", db)
        | .error .valueError => (.err 400 "Amount must be a valid number", db)
        | .ok amount =>
          if amount ≤ 0 then (.err 400 "Amount must be a positive number", db)
          else
            let e : Expense :=
              ⟨db.nextId, data.title.getD "", data.category.getD "", amount, date⟩
            (.ok 201 e, ⟨db.rows ++ [e], db.nextId + 1⟩)

/-- The `PUT /api/expenses/<id>` handler `update_expense`.
Validation is identical to `add_expense` (and happens before the store is
consulted); then the row with the given id is looked up — absent → 404 —
and `UPDATE expenses SET title = ?, category = ?, amount = ? WHERE id = ?`
replaces those three fields on every row with that id.  The handler re-reads
the row and echoes it with status 200. -/
def updateExpense (eid : Nat) (body : Option ReqBody) (db : DB) :
    ApiResp Expense × DB :=
  match body with
  | none => (.err 400 "No data provided", db)
  | some data =>
    if blank data.title || blank data.category then
      (.err 400 "Missing required fields", db)
    else
      match data.amount with
      | none => (.err 400 "Missing required fields", db)
      | some av =>
        match parseAmount av with
        | .error .typeError =>
            (.err 500 "float() argument must be a string or a real number", db)
        | .error .valueError => (.err 400 "Amount must be a valid number", db)
        | .ok amount =>
          if amount ≤ 0 then (.err 400 "Amount must be a positive number", db)
          else
            match findById db.rows eid with
            | none => (.err 404 "Expense not found", db)
            | some _ =>
              let rows' := db.rows.map (fun x =>
                if x.id = eid then
                  ⟨x.id, data.title.getD "", data.category.getD "", amount, x.date⟩
                else x)
              match findById rows' eid with
              | some e' => (.ok 200 e', ⟨rows', db.nextId⟩)
              | none => (.err 500 "argument of type NoneType is not iterable",
                  ⟨rows', db.nextId⟩)

/-- The `DELETE /api/expenses/<id>` handler `delete_expense`:
looks the row up — absent → 404 — then
`DELETE FROM expenses WHERE id = ?` and a confirmation message. -/
def deleteExpense (eid : Nat) (db : DB) : ApiResp String × DB :=
  match findById db.rows eid with
  | none => (.err 404 "Expense not found", db)
  | some _ =>
      (.ok 200 "Expense deleted successfully",
        ⟨db.rows.filter (fun x => x.id != eid), db.nextId⟩)

/-- The `DELETE /api/expenses` handler `delete_all_expenses`:
counts the rows, issues `DELETE FROM expenses`, and reports the count.
AUTOINCREMENT's sequence is not reset by `DELETE`. -/
def deleteAllExpenses (db : DB) : ApiResp String × DB :=
  (.ok 200 ("Deleted " ++ toString db.rows.length ++ " expenses"),
    ⟨[], db.nextId⟩)

/-- Strict lexicographic comparison of two lists of characters, comparing
code points — the order SQLite's byte-wise (memcmp) TEXT comparison induces
on valid UTF-8. -/
def charListLtb : List Char → List Char → Bool
  | _, [] => false
  | [], _ :: _ => true
  | c :: cs, d :: ds =>
    if c < d then true
    else if d < c then false
    else charListLtb cs ds

/-- SQLite's strict TEXT comparison on strings. -/
def strLtb (a b : String) : Bool := charListLtb a.data b.data

/-- SQLite's non-strict TEXT comparison on strings (`a <= b` as
`not (b < a)`). -/
def strLeb (a b : String) : Bool := !charListLtb b.data a.data

/-- The relation of `ORDER BY date DESC`: row `a` comes no later than row `b`
in the output when `a.date ≥ b.date` under SQLite's byte-wise TEXT
comparison (`dateGe_iff` relates it to Lean's `String` order). -/
def dateGe (a b : Expense) : Prop := strLeb b.date a.date = true

instance : DecidableRel dateGe :=
  fun a b => inferInstanceAs (Decidable (strLeb b.date a.date = true))

/-- `ORDER BY date DESC`: one refinement of SQLite's sort (SQLite leaves the
relative order of rows with equal `date` unspecified). -/
def sortByDateDesc (rows : List Expense) : List Expense :=
  rows.insertionSort dateGe

/-- The `GET /api/expenses` handler `get_expenses`:
`SELECT * FROM expenses ORDER BY date DESC`. -/
def getExpenses (db : DB) : ApiResp (List Expense) :=
  .ok 200 (sortByDateDesc db.rows)

/-- Python's `f"\x7bmonth:02d\x7d"`: the decimal digits of `month`,
left-padded with `0` to width 2. -/
def pad2 (m : Nat) : String :=
  if m < 10 then "0" ++ toString m else toString m

/-- `start_date = f"\x7byear\x7d-\x7bmonth:02d\x7d-01"` in
`get_expenses_by_month`. -/
def startDate (year month : Nat) : String :=
  toString year ++ "-" ++ pad2 month ++ "-01"

/-- `end_date` in `get_expenses_by_month`: first day of the next month, with
the December→January rollover into the next year. -/
def endDate (year month : Nat) : String :=
  if month = 12 then toString (year + 1) ++ "-01-01"
  else toString year ++ "-" ++ pad2 (month + 1) ++ "-01"

/-- The `WHERE date >= ? AND date < ?` filter of `get_expenses_by_month`
(SQLite TEXT comparison). -/
def inMonthRange (year month : Nat) (d : String) : Bool :=
  strLeb (startDate year month) d && strLtb d (endDate year month)

/-- The rows returned by `GET /api/expenses/month/<year>/<month>`:
`SELECT * FROM expenses WHERE date >= ? AND date < ? ORDER BY date DESC`. -/
def byMonthRows (year month : Nat) (db : DB) : List Expense :=
  sortByDateDesc (db.rows.filter (fun e => inMonthRange year month e.date))

/-- The `GET /api/expenses/month/<year>/<month>` handler
`get_expenses_by_month`. -/
def getExpensesByMonth (year month : Nat) (db : DB) : ApiResp (List Expense) :=
  .ok 200 (byMonthRows year month db)

/-- SQLite `SUM(amount)`: `NULL` on an empty table, otherwise the sum. -/
def sqlSum (l : List ℚ) : Option ℚ :=
  if l.isEmpty then none else some l.sum

/-- SQLite `AVG(amount)`: `NULL` on an empty table, otherwise sum/count. -/
def sqlAvg (l : List ℚ) : Option ℚ :=
  if l.isEmpty then none else some (l.sum / l.length)

/-- Round a rational to the nearest integer, ties to even (Python's `round`,
which uses banker's rounding). -/
def roundHalfEven (x : ℚ) : ℤ :=
  let f := ⌊x⌋
  let r := x - f
  if r < 1 / 2 then f
  else if 1 / 2 < r then f + 1
  else if f % 2 = 0 then f else f + 1

/-- Python's `round(x, 2)`: round to 2 decimal places. -/
def round2 (x : ℚ) : ℚ := (roundHalfEven (x * 100) : ℚ) / 100

/-- The summary statistics object
`\x7btotal: ..., average: ..., count: ...\x7d`. -/
structure Summary where
  total : ℚ
  average : ℚ
  count : Nat
deriving DecidableEq

/-- The `GET /api/summary` handler `get_summary`:
`SELECT COALESCE(SUM(amount), 0) as total, COALESCE(AVG(amount), 0) as
average, COUNT(*) as count FROM expenses`, with `total` and `average` passed
through `round(_, 2)`. -/
def getSummary (db : DB) : ApiResp Summary :=
  let amounts := db.rows.map (fun e => e.amount)
  .ok 200
    ⟨round2 ((sqlSum amounts).getD 0),
     round2 ((sqlAvg amounts).getD 0),
     db.rows.length⟩

/-- A body on which create or update reports a validation failure (or on
which `float()` fails): missing body, missing/empty `title` or `category`,
missing `amount`, an `amount` on which `float()` raises, or a parsed amount
that is `<= 0`. -/
def badBody : Option ReqBody → Bool
  | none => true
  | some data =>
    blank data.title || blank data.category ||
      (match data.amount with
       | none => true
       | some av =>
         match parseAmount av with
         | .error _ => true
         | .ok a => decide (a ≤ 0))

/-- Whether the request reaches the `float(amount)` call with an argument of
non-string, non-numeric type, so that `TypeError` escapes the
`except ValueError` handler: `title` and `category` pass the truthiness
check and `amount` is present with such a value. -/
def typeErrorAmount : Option ReqBody → Bool
  | none => false
  | some data =>
    !blank data.title && !blank data.category &&
      decide (data.amount = some AmountVal.other)

/-- The store invariant: every id is below the AUTOINCREMENT counter, ids are
pairwise distinct, and every row satisfies the data-model constraints
(`amount > 0`, non-empty `title` and `category`). -/
def DBInv (db : DB) : Prop :=
  (∀ e ∈ db.rows, e.id < db.nextId) ∧
  (db.rows.map (fun e => e.id)).Nodup ∧
  (∀ e ∈ db.rows, 0 < e.amount ∧ e.title ≠ "" ∧ e.category ≠ "")

/-- The database states reachable from a fresh database through the mutating
API operations (create, update, delete one, delete all), with arbitrary
request bodies. -/
inductive Reachable : DB → Prop where
  | init : Reachable DB.empty
  | create (body : Option ReqBody) (now : String) {db : DB} :
      Reachable db → Reachable (addExpense body now db).2
  | update (eid : Nat) (body : Option ReqBody) {db : DB} :
      Reachable db → Reachable (updateExpense eid body db).2
  | remove (eid : Nat) {db : DB} :
      Reachable db → Reachable (deleteExpense eid db).2
  | clear {db : DB} : Reachable db → Reachable (deleteAllExpenses db).2

/-- A sample one-row database: the store after inserting
`\x7btitle: "Lunch", category: "Food", amount: 250\x7d`. -/
def dbOne : DB :=
  (addExpense (some ⟨some "Lunch", some "Food", some (AmountVal.num 250), none⟩)
    "2026-02-01T12:00:00" DB.empty).2

/-! ### Lemmas: the string order, the validation paths, and the
store invariant -/

/-- `charListLtb` decides the lexicographic strict order on `List Char`. -/
theorem charListLtb_iff_lt :
    ∀ a b : List Char, charListLtb a b = true ↔ a < b := by
  intro a
  induction a with
  | nil =>
    intro b
    cases b with
    | nil =>
      refine iff_of_false (by simp [charListLtb]) ?_
      intro h
      cases h
    | cons d ds => exact iff_of_true rfl List.Lex.nil
  | cons c cs ih =>
    intro b
    cases b with
    | nil =>
      refine iff_of_false (by simp [charListLtb]) ?_
      intro h
      cases h
    | cons d ds =>
      simp only [charListLtb]
      by_cases hcd : c < d
      · simp only [hcd, if_true]
        exact iff_of_true trivial (List.Lex.rel hcd)
      · simp only [hcd, if_false]
        by_cases hdc : d < c
        · simp only [hdc, if_true]
          refine iff_of_false (by simp) ?_
          intro h
          cases h with
          | cons h' => exact absurd hdc (lt_irrefl _)
          | rel h' => exact absurd h' hcd
        · have hed : c = d := le_antisymm (le_of_not_lt hdc) (le_of_not_lt hcd)
          simp only [hdc, if_false]
          subst hed
          constructor
          · intro h
            exact List.Lex.cons ((ih ds).mp h)
          · intro h
            cases h with
            | cons h' => exact (ih ds).mpr h'
            | rel h' => exact absurd h' hcd

/-- `strLtb` agrees with the lexicographic order on `String`. -/
theorem strLtb_iff (a b : String) : strLtb a b = true ↔ a < b := by
  rw [String.lt_iff_toList_lt]
  exact charListLtb_iff_lt a.data b.data

/-- `strLeb` agrees with the lexicographic order on `String`. -/
theorem strLeb_iff (a b : String) : strLeb a b = true ↔ a ≤ b := by
  unfold strLeb
  cases hx : charListLtb b.data a.data with
  | false =>
    refine iff_of_true (by simp) ?_
    apply le_of_not_lt
    rw [← strLtb_iff b a]
    simp [strLtb, hx]
  | true =>
    refine iff_of_false (by simp) ?_
    intro hle
    have hlt : b < a := (strLtb_iff b a).mp hx
    exact absurd hle (not_le_of_lt hlt)

/-- `dateGe` is the reflected `≥` on the rows' dates. -/
theorem dateGe_iff (a b : Expense) : dateGe a b ↔ b.date ≤ a.date :=
  strLeb_iff _ _

instance : IsTotal Expense dateGe :=
  ⟨fun a b => (le_total b.date a.date).imp ((dateGe_iff a b).mpr)
    ((dateGe_iff b a).mpr)⟩

instance : IsTrans Expense dateGe :=
  ⟨fun a b c h1 h2 => (dateGe_iff a c).mpr
    (le_trans ((dateGe_iff b c).mp h2) ((dateGe_iff a b).mp h1))⟩

/-- A field read through `Option.getD ""` is non-empty whenever the Python
truthiness check `not field` failed. -/
theorem getD_ne_empty_of_not_blank {o : Option String} (h : blank o = false) :
    o.getD "" ≠ "" := by
  cases o with
  | none => simp [blank] at h
  | some s =>
    simp only [Option.getD_some]
    intro hs
    rw [hs] at h
    exact absurd h (by decide)

/-- After `DELETE FROM expenses WHERE id = ?`, no row with that id is left. -/
theorem findById_filter_ne (rows : List Expense) (eid : Nat) :
    findById (rows.filter (fun x => x.id != eid)) eid = none := by
  apply List.find?_eq_none.mpr
  intro x hx h
  have h2 := (List.mem_filter.mp hx).2
  simp only [bne_iff_ne, ne_eq, decide_eq_true_eq] at h2
  simp only [beq_iff_eq] at h
  exact h2 h

/-- Looking a row up after an id-preserving rewrite of every row finds the
rewritten image of the row found before. -/
theorem findById_map_of_id_eq (rows : List Expense) (eid : Nat)
    (g : Expense → Expense) (hg : ∀ x, (g x).id = x.id) :
    findById (rows.map g) eid = (findById rows eid).map g := by
  induction rows with
  | nil => rfl
  | cons x xs ih =>
    by_cases h : x.id = eid
    · have hpx : ((g x).id == eid) = true := by simp [hg, h]
      have hpx' : (x.id == eid) = true := by simp [h]
      simp [findById, List.find?_cons_of_pos, hpx, hpx']
    · have hpx : ((g x).id == eid) = false := by simp [hg, h]
      have hpx' : (x.id == eid) = false := by simp [h]
      simp only [findById, List.map_cons] at ih ⊢
      rw [List.find?_cons_of_neg _ (by simp [hpx]),
        List.find?_cons_of_neg _ (by simp [hpx'])]
      exact ih

/-- A non-empty string is not `blank`. -/
theorem blank_some_false {s : String} (h : s ≠ "") : blank (some s) = false := by
  simp only [blank]
  rcases hx : s.isEmpty with _ | _
  · rfl
  · exact absurd ((String.isEmpty_iff s).mp hx) h

/-- The row `SELECT ... WHERE id = ?` returns carries the queried id. -/
theorem findById_some_id {rows : List Expense} {eid : Nat} {e : Expense}
    (h : findById rows eid = some e) : e.id = eid := by
  have := List.find?_some h
  simpa using this

/-- Case analysis of `add_expense` on a body that fails validation: the store
is untouched, and the response is a 400 — except when `float()` raises
`TypeError`, which only the generic `except Exception` catches, giving
a 500. -/
theorem addExpense_invalid (db : DB) (now : String) (body : Option ReqBody)
    (h : badBody body = true) :
    (addExpense body now db).2 = db ∧
    (typeErrorAmount body = false →
      (addExpense body now db).1.status = 400 ∧
      (addExpense body now db).1.clientError = true) ∧
    (typeErrorAmount body = true →
      (addExpense body now db).1 =
        .err 500 "float() argument must be a string or a real number") := by
  cases body with
  | none =>
    exact ⟨rfl, fun _ => ⟨rfl, rfl⟩, fun hc => by simp [typeErrorAmount] at hc⟩
  | some data =>
    obtain ⟨t, c, am, dt⟩ := data
    cases ht : blank t with
    | true =>
      refine ⟨?_, ?_, ?_⟩
      · simp [addExpense, ht]
      · intro _
        constructor <;> simp [addExpense, ht, ApiResp.status, ApiResp.clientError] <;> decide
      · intro hc
        simp [typeErrorAmount, ht] at hc
    | false =>
      cases hc : blank c with
      | true =>
        refine ⟨?_, ?_, ?_⟩
        · simp [addExpense, ht, hc]
        · intro _
          constructor <;> simp [addExpense, ht, hc, ApiResp.status, ApiResp.clientError] <;>
            decide
        · intro hco
          simp [typeErrorAmount, ht, hc] at hco
      | false =>
        cases am with
        | none =>
          refine ⟨?_, ?_, ?_⟩
          · simp [addExpense, ht, hc]
          · intro _
            constructor <;>
              simp [addExpense, ht, hc, ApiResp.status, ApiResp.clientError] <;> decide <;>
            decide
          · intro hco
            simp [typeErrorAmount, ht, hc] at hco
        | some av =>
          cases av with
          | num q =>
            have hq : q ≤ 0 := by
              simp [badBody, ht, hc, parseAmount] at h
              exact h
            refine ⟨?_, ?_, ?_⟩
            · simp [addExpense, ht, hc, parseAmount, hq]
            · intro _
              constructor <;>
                simp [addExpense, ht, hc, parseAmount, hq, ApiResp.status,
                  ApiResp.clientError] <;> decide
            · intro hco
              simp [typeErrorAmount, ht, hc] at hco
          | numStr q =>
            have hq : q ≤ 0 := by
              simp [badBody, ht, hc, parseAmount] at h
              exact h
            refine ⟨?_, ?_, ?_⟩
            · simp [addExpense, ht, hc, parseAmount, hq]
            · intro _
              constructor <;>
                simp [addExpense, ht, hc, parseAmount, hq, ApiResp.status,
                  ApiResp.clientError] <;> decide
            · intro hco
              simp [typeErrorAmount, ht, hc] at hco
          | badStr =>
            refine ⟨?_, ?_, ?_⟩
            · simp [addExpense, ht, hc, parseAmount]
            · intro _
              constructor <;>
                simp [addExpense, ht, hc, parseAmount, ApiResp.status,
                  ApiResp.clientError] <;> decide
            · intro hco
              simp [typeErrorAmount, ht, hc] at hco
          | other =>
            refine ⟨?_, ?_, ?_⟩
            · simp [addExpense, ht, hc, parseAmount]
            · intro hco
              simp [typeErrorAmount, ht, hc] at hco
            · intro _
              simp [addExpense, ht, hc, parseAmount]

/-- Case analysis of `update_expense` on a body that fails validation:
validation runs before the id is looked up, so for every id the store is
untouched and the response is a 400 (or the `TypeError` 500), never 404. -/
theorem updateExpense_invalid (db : DB) (eid : Nat) (body : Option ReqBody)
    (h : badBody body = true) :
    (updateExpense eid body db).2 = db ∧
    (typeErrorAmount body = false →
      (updateExpense eid body db).1.status = 400 ∧
      (updateExpense eid body db).1.clientError = true) ∧
    (typeErrorAmount body = true →
      (updateExpense eid body db).1 =
        .err 500 "float() argument must be a string or a real number") := by
  cases body with
  | none =>
    exact ⟨rfl, fun _ => ⟨rfl, rfl⟩, fun hc => by simp [typeErrorAmount] at hc⟩
  | some data =>
    obtain ⟨t, c, am, dt⟩ := data
    cases ht : blank t with
    | true =>
      refine ⟨?_, ?_, ?_⟩
      · simp [updateExpense, ht]
      · intro _
        constructor <;>
          simp [updateExpense, ht, ApiResp.status, ApiResp.clientError] <;> decide
      · intro hco
        simp [typeErrorAmount, ht] at hco
    | false =>
      cases hc : blank c with
      | true =>
        refine ⟨?_, ?_, ?_⟩
        · simp [updateExpense, ht, hc]
        · intro _
          constructor <;>
            simp [updateExpense, ht, hc, ApiResp.status, ApiResp.clientError] <;> decide
        · intro hco
          simp [typeErrorAmount, ht, hc] at hco
      | false =>
        cases am with
        | none =>
          refine ⟨?_, ?_, ?_⟩
          · simp [updateExpense, ht, hc]
          · intro _
            constructor <;>
              simp [updateExpense, ht, hc, ApiResp.status, ApiResp.clientError] <;> decide <;> decide
          · intro hco
            simp [typeErrorAmount, ht, hc] at hco
        | some av =>
          cases av with
          | num q =>
            have hq : q ≤ 0 := by
              simp [badBody, ht, hc, parseAmount] at h
              exact h
            refine ⟨?_, ?_, ?_⟩
            · simp [updateExpense, ht, hc, parseAmount, hq]
            · intro _
              constructor <;>
                simp [updateExpense, ht, hc, parseAmount, hq, ApiResp.status,
                  ApiResp.clientError] <;> decide
            · intro hco
              simp [typeErrorAmount, ht, hc] at hco
          | numStr q =>
            have hq : q ≤ 0 := by
              simp [badBody, ht, hc, parseAmount] at h
              exact h
            refine ⟨?_, ?_, ?_⟩
            · simp [updateExpense, ht, hc, parseAmount, hq]
            · intro _
              constructor <;>
                simp [updateExpense, ht, hc, parseAmount, hq, ApiResp.status,
                  ApiResp.clientError] <;> decide
            · intro hco
              simp [typeErrorAmount, ht, hc] at hco
          | badStr =>
            refine ⟨?_, ?_, ?_⟩
            · simp [updateExpense, ht, hc, parseAmount]
            · intro _
              constructor <;>
                simp [updateExpense, ht, hc, parseAmount, ApiResp.status,
                  ApiResp.clientError] <;> decide
            · intro hco
              simp [typeErrorAmount, ht, hc] at hco
          | other =>
            refine ⟨?_, ?_, ?_⟩
            · simp [updateExpense, ht, hc, parseAmount]
            · intro hco
              simp [typeErrorAmount, ht, hc] at hco
            · intro _
              simp [updateExpense, ht, hc, parseAmount]

/-- `add_expense` preserves the store invariant. -/
theorem dbInv_addExpense {db : DB} (h : DBInv db)
    (body : Option ReqBody) (now : String) :
    DBInv (addExpense body now db).2 := by
  obtain ⟨hbound, hnodup, hvalid⟩ := h
  unfold addExpense
  cases body with
  | none => exact ⟨hbound, hnodup, hvalid⟩
  | some data =>
    dsimp only
    split
    · exact ⟨hbound, hnodup, hvalid⟩
    · rename_i hblank
      replace hblank := Bool.eq_false_of_not_eq_true hblank
      rw [Bool.or_eq_false_eq_eq_false_and_eq_false] at hblank
      split
      · exact ⟨hbound, hnodup, hvalid⟩
      · split
        · exact ⟨hbound, hnodup, hvalid⟩
        · exact ⟨hbound, hnodup, hvalid⟩
        · rename_i amount hav
          split
          · exact ⟨hbound, hnodup, hvalid⟩
          · rename_i hpos
            refine ⟨?_, ?_, ?_⟩
            · intro e he
              rcases List.mem_append.mp he with he | he
              · exact Nat.lt_succ_of_lt (hbound e he)
              · rw [List.mem_singleton.mp he]
                exact Nat.lt_succ_self _
            · rw [List.map_append]
              rw [List.nodup_append]
              refine ⟨hnodup, List.nodup_singleton _, ?_⟩
              intro a ha hb
              rw [List.map_singleton, List.mem_singleton] at hb
              rcases List.mem_map.mp ha with ⟨x, hx, hxa⟩
              have := hbound x hx
              rw [hxa, hb] at this
              exact absurd this (lt_irrefl _)
            · intro e he
              rcases List.mem_append.mp he with he | he
              · exact hvalid e he
              · rw [List.mem_singleton.mp he]
                refine ⟨lt_of_not_le hpos, ?_, ?_⟩
                · exact getD_ne_empty_of_not_blank hblank.1
                · exact getD_ne_empty_of_not_blank hblank.2

/-- `update_expense` preserves the store invariant. -/
theorem dbInv_updateExpense {db : DB} (h : DBInv db)
    (eid : Nat) (body : Option ReqBody) :
    DBInv (updateExpense eid body db).2 := by
  obtain ⟨hbound, hnodup, hvalid⟩ := h
  unfold updateExpense
  cases body with
  | none => exact ⟨hbound, hnodup, hvalid⟩
  | some data =>
    dsimp only
    split
    · exact ⟨hbound, hnodup, hvalid⟩
    · rename_i hblank
      replace hblank := Bool.eq_false_of_not_eq_true hblank
      rw [Bool.or_eq_false_eq_eq_false_and_eq_false] at hblank
      split
      · exact ⟨hbound, hnodup, hvalid⟩
      · split
        · exact ⟨hbound, hnodup, hvalid⟩
        · exact ⟨hbound, hnodup, hvalid⟩
        · rename_i amount hav
          split
          · exact ⟨hbound, hnodup, hvalid⟩
          · rename_i hpos
            split
            · exact ⟨hbound, hnodup, hvalid⟩
            · have key : DBInv ⟨db.rows.map (fun x =>
                  if x.id = eid then
                    ⟨x.id, data.title.getD "", data.category.getD "",
                      amount, x.date⟩
                  else x), db.nextId⟩ := by
                refine ⟨?_, ?_, ?_⟩
                · intro e he
                  rcases List.mem_map.mp he with ⟨x, hx, hxe⟩
                  have hid : e.id = x.id := by
                    rw [← hxe]; split <;> rfl
                  rw [hid]
                  exact hbound x hx
                · rw [List.map_map]
                  have : (fun e : Expense => e.id) ∘ (fun x =>
                      if x.id = eid then
                        (⟨x.id, data.title.getD "", data.category.getD "",
                          amount, x.date⟩ : Expense)
                      else x) = fun x => x.id := by
                    funext x
                    simp only [Function.comp]
                    split <;> rfl
                  rw [this]
                  exact hnodup
                · intro e he
                  rcases List.mem_map.mp he with ⟨x, hx, hxe⟩
                  rw [← hxe]
                  split
                  · refine ⟨lt_of_not_le hpos, ?_, ?_⟩
                    · exact getD_ne_empty_of_not_blank hblank.1
                    · exact getD_ne_empty_of_not_blank hblank.2
                  · exact hvalid x hx
              split
              · exact key
              · exact key

/-- `delete_expense` preserves the store invariant. -/
theorem dbInv_deleteExpense {db : DB} (h : DBInv db) (eid : Nat) :
    DBInv (deleteExpense eid db).2 := by
  obtain ⟨hbound, hnodup, hvalid⟩ := h
  unfold deleteExpense
  split
  · exact ⟨hbound, hnodup, hvalid⟩
  · refine ⟨?_, ?_, ?_⟩
    · intro e he
      exact hbound e (List.mem_filter.mp he).1
    · have hsub : List.Sublist
          ((db.rows.filter (fun x => x.id != eid)).map (fun e => e.id))
          (db.rows.map (fun e => e.id)) :=
        (List.filter_sublist _).map _
      exact hnodup.sublist hsub
    · intro e he
      exact hvalid e (List.mem_filter.mp he).1

/-- `delete_all_expenses` preserves the store invariant. -/
theorem dbInv_deleteAllExpenses (db : DB) :
    DBInv (deleteAllExpenses db).2 := by
  refine ⟨?_, ?_, ?_⟩ <;> simp [deleteAllExpenses]

/-- Every reachable database state satisfies the store invariant. -/
theorem dbInv_of_reachable {db : DB} (h : Reachable db) : DBInv db := by
  induction h with
  | init =>
    refine ⟨?_, ?_, ?_⟩ <;> simp [DB.empty]
  | create body now _ ih => exact dbInv_addExpense ih body now
  | update eid body _ ih => exact dbInv_updateExpense ih eid body
  | remove eid _ ih => exact dbInv_deleteExpense ih eid
  | clear _ _ => exact dbInv_deleteAllExpenses _

/-- A 201 response from `add_expense` carries the id the AUTOINCREMENT
counter assigned. -/
theorem addExpense_ok_id {body : Option ReqBody} {now : String} {db : DB}
    {e : Expense} (h : (addExpense body now db).1 = .ok 201 e) :
    e.id = db.nextId := by
  unfold addExpense at h
  cases body with
  | none => simp at h
  | some data =>
    dsimp only at h
    split at h
    · simp at h
    · split at h
      · simp at h
      · split at h
        · simp at h
        · simp at h
        · split at h
          · simp at h
          · simp only [ApiResp.ok.injEq, true_and] at h
            rw [← h]

/-- `round(0, 2) = 0`. -/
theorem round2_zero : round2 0 = 0 := by
  norm_num [round2, roundHalfEven]

/-- Membership in the by-month result is membership in the store together
with the half-open date-range condition. -/
theorem mem_byMonthRows {db : DB} {year month : Nat} {e : Expense} :
    e ∈ byMonthRows year month db ↔
      e ∈ db.rows ∧ startDate year month ≤ e.date ∧
        e.date < endDate year month := by
  unfold byMonthRows sortByDateDesc
  rw [List.mem_insertionSort, List.mem_filter]
  unfold inMonthRange
  rw [Bool.and_eq_true, strLeb_iff, strLtb_iff]

/-! ### The claims -/

/-- C1 (amended): a create or update request whose body fails validation —
missing body, missing or empty `title`/`category`, missing `amount`, an
`amount` on which `float()` fails, or a parsed amount `<= 0` — never touches
the store.  It is answered with a 400-class error carrying a human-readable
message, EXCEPT that an `amount` of non-string, non-numeric JSON type (e.g. a
list) makes `float()` raise `TypeError`, which `except ValueError` does not
catch, so the generic handler answers 500 (the store is still untouched). -/
theorem invalid_body_rejected_no_write (db : DB) (now : String) (eid : Nat)
    (body : Option ReqBody) (h : badBody body = true) :
    (addExpense body now db).2 = db ∧
    (updateExpense eid body db).2 = db ∧
    (typeErrorAmount body = false →
      (addExpense body now db).1.clientError = true ∧
      (updateExpense eid body db).1.clientError = true) ∧
    (typeErrorAmount body = true →
      (addExpense body now db).1.status = 500 ∧
      (updateExpense eid body db).1.status = 500) := by
  obtain ⟨ha2, ha4, ha5⟩ := addExpense_invalid db now body h
  obtain ⟨hu2, hu4, hu5⟩ := updateExpense_invalid db eid body h
  refine ⟨ha2, hu2, fun hf => ⟨(ha4 hf).2, (hu4 hf).2⟩, fun ht => ⟨?_, ?_⟩⟩
  · rw [ha5 ht]
    rfl
  · rw [hu5 ht]
    rfl

/-- C1 witness: the create body `amount = -5` is rejected with a 400-class
error by both handlers and neither store changes. -/
theorem invalid_body_rejected_no_write_witness :
    (addExpense (some ⟨some "Lunch", some "Food", some (AmountVal.num (-5)), none⟩)
        "2026-02-01T12:00:00" DB.empty).2 = DB.empty ∧
    (updateExpense 7 (some ⟨some "Lunch", some "Food", some (AmountVal.num (-5)), none⟩)
        DB.empty).2 = DB.empty ∧
    (typeErrorAmount (some ⟨some "Lunch", some "Food", some (AmountVal.num (-5)), none⟩) = false →
      (addExpense (some ⟨some "Lunch", some "Food", some (AmountVal.num (-5)), none⟩)
          "2026-02-01T12:00:00" DB.empty).1.clientError = true ∧
      (updateExpense 7 (some ⟨some "Lunch", some "Food", some (AmountVal.num (-5)), none⟩)
          DB.empty).1.clientError = true) ∧
    (typeErrorAmount (some ⟨some "Lunch", some "Food", some (AmountVal.num (-5)), none⟩) = true →
      (addExpense (some ⟨some "Lunch", some "Food", some (AmountVal.num (-5)), none⟩)
          "2026-02-01T12:00:00" DB.empty).1.status = 500 ∧
      (updateExpense 7 (some ⟨some "Lunch", some "Food", some (AmountVal.num (-5)), none⟩)
          DB.empty).1.status = 500) :=
  invalid_body_rejected_no_write DB.empty "2026-02-01T12:00:00" 7
    (some ⟨some "Lunch", some "Food", some (AmountVal.num (-5)), none⟩) (by decide)

/-- C1 counterexample: the claim as stated — every validation failure is
answered with a 400-class error — is false: `amount` of list type fails to
parse (`float()` raises `TypeError`), yet the response has status 500 and is
not a 400-class error.  No row is created. -/
theorem invalid_body_typeError_gives_500 :
    badBody (some ⟨some "Lunch", some "Food", some AmountVal.other, none⟩) = true ∧
    parseAmount AmountVal.other = .error .typeError ∧
    (addExpense (some ⟨some "Lunch", some "Food", some AmountVal.other, none⟩)
        "2026-02-01T12:00:00" DB.empty).1.clientError = false ∧
    (addExpense (some ⟨some "Lunch", some "Food", some AmountVal.other, none⟩)
        "2026-02-01T12:00:00" DB.empty).1.status = 500 ∧
    (addExpense (some ⟨some "Lunch", some "Food", some AmountVal.other, none⟩)
        "2026-02-01T12:00:00" DB.empty).2 = DB.empty :=
  ⟨rfl, rfl, rfl, rfl, rfl⟩

/-- C2: in every store state reachable through the API operations, the ids of
the rows are pairwise distinct, every row's amount is strictly positive, no
row's title or category is empty, and any successful insert returns an id not
present in the store before it. -/
theorem store_invariants_reachable (db : DB) (h : Reachable db) :
    (db.rows.map (fun e => e.id)).Nodup ∧
    (∀ e ∈ db.rows, 0 < e.amount ∧ e.title ≠ "" ∧ e.category ≠ "") ∧
    (∀ body now e, (addExpense body now db).1 = ApiResp.ok 201 e →
      e.id ∉ db.rows.map (fun x => x.id)) := by
  obtain ⟨hbound, hnodup, hvalid⟩ := dbInv_of_reachable h
  refine ⟨hnodup, hvalid, ?_⟩
  intro body now e hok hmem
  have hid : e.id = db.nextId := addExpense_ok_id hok
  rcases List.mem_map.mp hmem with ⟨x, hx, hxe⟩
  have hlt := hbound x hx
  rw [hxe, hid] at hlt
  exact lt_irrefl _ hlt

/-- C2 witness: the invariants hold of the reachable one-row store `dbOne`. -/
theorem store_invariants_reachable_witness :
    (dbOne.rows.map (fun e => e.id)).Nodup ∧
    (∀ e ∈ dbOne.rows, 0 < e.amount ∧ e.title ≠ "" ∧ e.category ≠ "") ∧
    (∀ body now e, (addExpense body now dbOne).1 = ApiResp.ok 201 e →
      e.id ∉ dbOne.rows.map (fun x => x.id)) :=
  store_invariants_reachable dbOne (Reachable.create _ _ Reachable.init)

/-- C3: for every record present in the store and every valid update, exactly
`title`, `category` and `amount` of the rows with that id are replaced; the
ids and dates of all rows — and every row with a different id — are
unchanged, as is the AUTOINCREMENT counter, and the handler echoes the
updated record with status 200. -/
theorem update_replaces_exactly_mutable_fields (db : DB) (eid : Nat)
    (t c : String) (av : AmountVal) (a : ℚ) (dt : Option String)
    (ht : t ≠ "") (hc : c ≠ "") (hav : parseAmount av = .ok a) (ha : 0 < a)
    (e : Expense) (he : findById db.rows eid = some e) :
    (updateExpense eid (some ⟨some t, some c, some av, dt⟩) db).1 =
      .ok 200 ⟨e.id, t, c, a, e.date⟩ ∧
    (updateExpense eid (some ⟨some t, some c, some av, dt⟩) db).2.rows =
      db.rows.map (fun x => if x.id = eid then ⟨x.id, t, c, a, x.date⟩ else x) ∧
    (updateExpense eid (some ⟨some t, some c, some av, dt⟩) db).2.nextId =
      db.nextId ∧
    (updateExpense eid (some ⟨some t, some c, some av, dt⟩) db).2.rows.map
        (fun x => x.id) = db.rows.map (fun x => x.id) ∧
    (updateExpense eid (some ⟨some t, some c, some av, dt⟩) db).2.rows.map
        (fun x => x.date) = db.rows.map (fun x => x.date) ∧
    (∀ x ∈ db.rows, x.id ≠ eid →
      x ∈ (updateExpense eid (some ⟨some t, some c, some av, dt⟩) db).2.rows) := by
  have hbt := blank_some_false ht
  have hbc := blank_some_false hc
  have hg : ∀ x : Expense,
      ((fun x : Expense =>
        if x.id = eid then (⟨x.id, t, c, a, x.date⟩ : Expense) else x) x).id =
        x.id := by
    intro x
    dsimp only
    split <;> rfl
  have hfind : findById (db.rows.map (fun x =>
      if x.id = eid then (⟨x.id, t, c, a, x.date⟩ : Expense) else x)) eid =
      some ⟨e.id, t, c, a, e.date⟩ := by
    rw [findById_map_of_id_eq db.rows eid _ hg, he, Option.map_some']
    rw [if_pos (findById_some_id he)]
  have hkey : updateExpense eid (some ⟨some t, some c, some av, dt⟩) db =
      (.ok 200 ⟨e.id, t, c, a, e.date⟩,
       ⟨db.rows.map (fun x =>
          if x.id = eid then (⟨x.id, t, c, a, x.date⟩ : Expense) else x),
        db.nextId⟩) := by
    simp [updateExpense, hbt, hbc, hav, he, hfind, not_le_of_lt ha]
  rw [hkey]
  refine ⟨rfl, rfl, rfl, ?_, ?_, ?_⟩
  · rw [List.map_map]
    apply List.map_congr_left
    intro x _
    simp only [Function.comp]
    split <;> rfl
  · rw [List.map_map]
    apply List.map_congr_left
    intro x _
    simp only [Function.comp]
    split <;> rfl
  · intro x hx hne
    refine List.mem_map.mpr ⟨x, hx, ?_⟩
    dsimp only
    rw [if_neg hne]

/-- C3 witness: updating the single row of a one-row store replaces exactly
title, category and amount and keeps id and date. -/
theorem update_replaces_exactly_mutable_fields_witness :
    (updateExpense 1 (some ⟨some "x", some "y", some (AmountVal.num 3), none⟩)
        ⟨[⟨1, "a", "c", 5, "2026-01-01"⟩], 2⟩).1 =
      .ok 200 ⟨1, "x", "y", 3, "2026-01-01"⟩ :=
  (update_replaces_exactly_mutable_fields ⟨[⟨1, "a", "c", 5, "2026-01-01"⟩], 2⟩
      1 "x" "y" (AmountVal.num 3) 3 none (by decide) (by decide) rfl (by decide)
      ⟨1, "a", "c", 5, "2026-01-01"⟩ (by decide)).1

/-- C4: updating an id that is not in the store with a valid body answers
404 with an error message and leaves the store unchanged. -/
theorem update_nonexistent_id_404 (db : DB) (eid : Nat) (t c : String)
    (av : AmountVal) (a : ℚ) (dt : Option String) (ht : t ≠ "") (hc : c ≠ "")
    (hav : parseAmount av = .ok a) (ha : 0 < a)
    (he : findById db.rows eid = none) :
    updateExpense eid (some ⟨some t, some c, some av, dt⟩) db =
      (.err 404 "Expense not found", db) := by
  simp [updateExpense, blank_some_false ht, blank_some_false hc, hav, he,
    not_le_of_lt ha]

/-- C4 witness: updating id 99 of the empty store yields 404 and no
change. -/
theorem update_nonexistent_id_404_witness :
    updateExpense 99 (some ⟨some "Rent", some "Home", some (AmountVal.num 10), none⟩)
      DB.empty = (.err 404 "Expense not found", DB.empty) :=
  update_nonexistent_id_404 DB.empty 99 "Rent" "Home" (AmountVal.num 10) 10 none
    (by decide) (by decide) rfl (by decide) rfl

/-- C5: the by-month query returns exactly the records whose date lies in the
half-open interval `[year-month-01, next-month-01)` under SQLite's TEXT
comparison, ordered by date descending; the bounds for December 2026 are
`2026-12-01` (inclusive) and `2027-01-01` (exclusive, the year rollover), so
a record dated `2027-01-01` is excluded and every December 2026 record is
included, and `getByMonth(2026, 1)` excludes a record dated `2025-12-31`. -/
theorem by_month_half_open_sorted (db : DB) (year month : Nat) :
    List.Perm (byMonthRows year month db)
      (db.rows.filter (fun e => inMonthRange year month e.date)) ∧
    List.Sorted dateGe (byMonthRows year month db) ∧
    (∀ a b : Expense, dateGe a b ↔ b.date ≤ a.date) ∧
    (∀ e, e ∈ byMonthRows year month db ↔
      e ∈ db.rows ∧ startDate year month ≤ e.date ∧ e.date < endDate year month) ∧
    startDate 2026 12 = "2026-12-01" ∧
    endDate 2026 12 = "2027-01-01" ∧
    startDate 2026 1 = "2026-01-01" ∧
    (∀ e ∈ db.rows, e.date = "2027-01-01" → e ∉ byMonthRows 2026 12 db) ∧
    (∀ e ∈ db.rows, "2026-12-01" ≤ e.date → e.date < "2027-01-01" →
      e ∈ byMonthRows 2026 12 db) ∧
    (∀ e ∈ db.rows, e.date = "2025-12-31" → e ∉ byMonthRows 2026 1 db) := by
  refine ⟨List.perm_insertionSort _ _, List.sorted_insertionSort _ _, dateGe_iff,
    fun e => mem_byMonthRows, by decide, by decide, by decide, ?_, ?_, ?_⟩
  · intro e _ hdate hmem
    have h3 := (mem_byMonthRows.mp hmem).2.2
    rw [hdate, show endDate 2026 12 = "2027-01-01" from by decide] at h3
    exact lt_irrefl _ h3
  · intro e he h1 h2
    refine mem_byMonthRows.mpr ⟨he, ?_, ?_⟩
    · rw [show startDate 2026 12 = "2026-12-01" from by decide]
      exact h1
    · rw [show endDate 2026 12 = "2027-01-01" from by decide]
      exact h2
  · intro e _ hdate hmem
    have h2 := (mem_byMonthRows.mp hmem).2.1
    rw [hdate, show startDate 2026 1 = "2026-01-01" from by decide] at h2
    have hb : strLeb "2026-01-01" "2025-12-31" = true := (strLeb_iff _ _).mpr h2
    exact absurd hb (by decide)

/-- C6: the summary reports the rounded sum, the rounded mean (0 on an empty
store, with no division-by-zero failure) and the row count; on an empty
store it is exactly `\x7btotal: 0, average: 0, count: 0\x7d`. -/
theorem summary_total_average_count (db : DB) :
    getSummary db = .ok 200
      ⟨round2 ((db.rows.map (fun e => e.amount)).sum),
       round2 (if db.rows.length = 0 then 0
         else (db.rows.map (fun e => e.amount)).sum / db.rows.length),
       db.rows.length⟩ ∧
    (∀ n, getSummary ⟨[], n⟩ = .ok 200 ⟨0, 0, 0⟩) := by
  constructor
  · cases hr : db.rows with
    | nil => simp [getSummary, sqlSum, sqlAvg, hr]
    | cons x xs => simp [getSummary, sqlSum, sqlAvg, hr]
  · intro n
    simp [getSummary, sqlSum, sqlAvg, round2_zero]

/-- C7: deleting an id present in the store answers 200 with a confirmation
message and removes its row; deleting the same id again answers 404 and
leaves the store unchanged. -/
theorem delete_then_delete_again_404 (db : DB) (eid : Nat) (e : Expense)
    (he : findById db.rows eid = some e) :
    (deleteExpense eid db).1 = .ok 200 "Expense deleted successfully" ∧
    (deleteExpense eid db).2.rows = db.rows.filter (fun x => x.id != eid) ∧
    e ∉ (deleteExpense eid db).2.rows ∧
    findById (deleteExpense eid db).2.rows eid = none ∧
    (deleteExpense eid (deleteExpense eid db).2).1 =
      .err 404 "Expense not found" ∧
    (deleteExpense eid (deleteExpense eid db).2).2 = (deleteExpense eid db).2 := by
  have h1 : deleteExpense eid db = (.ok 200 "Expense deleted successfully",
      ⟨db.rows.filter (fun x => x.id != eid), db.nextId⟩) := by
    simp [deleteExpense, he]
  have hid := findById_some_id he
  have hnone := findById_filter_ne db.rows eid
  rw [h1]
  refine ⟨rfl, rfl, ?_, hnone, ?_, ?_⟩
  · intro hmem
    have hne := (List.mem_filter.mp hmem).2
    simp only [bne_iff_ne, ne_eq, decide_eq_true_eq] at hne
    exact hne hid
  · simp [deleteExpense, hnone]
  · simp [deleteExpense, hnone]

/-- C7 witness: deleting id 1 of the one-row store succeeds; deleting it
again yields 404. -/
theorem delete_then_delete_again_404_witness :
    (deleteExpense 1 (deleteExpense 1 dbOne).2).1 =
      .err 404 "Expense not found" :=
  (delete_then_delete_again_404 dbOne 1
      ⟨1, "Lunch", "Food", 250, "2026-02-01T12:00:00"⟩ (by decide)).2.2.2.2.1

/-- C8: the list-all endpoint returns all records of the store, ordered by
date descending (rows with equal dates in some arbitrary order). -/
theorem list_all_date_desc (db : DB) :
    getExpenses db = .ok 200 (sortByDateDesc db.rows) ∧
    List.Perm (sortByDateDesc db.rows) db.rows ∧
    List.Sorted dateGe (sortByDateDesc db.rows) ∧
    (∀ a b : Expense, dateGe a b ↔ b.date ≤ a.date) :=
  ⟨rfl, List.perm_insertionSort _ _, List.sorted_insertionSort _ _, dateGe_iff⟩

/-- C9 (amended): in the update handler, body validation precedes the
existence check: for every id — present or not — an invalid body is answered
with 400 (or 500 when `float()` raises `TypeError` on an amount of
non-string, non-numeric type), never 404, and the store is unchanged. -/
theorem update_validation_precedes_lookup (db : DB) (eid : Nat)
    (body : Option ReqBody) (h : badBody body = true) :
    (updateExpense eid body db).1.status ≠ 404 ∧
    (updateExpense eid body db).2 = db ∧
    (typeErrorAmount body = false → (updateExpense eid body db).1.status = 400) ∧
    (typeErrorAmount body = true → (updateExpense eid body db).1.status = 500) := by
  obtain ⟨h2, h4, h5⟩ := updateExpense_invalid db eid body h
  refine ⟨?_, h2, fun hf => (h4 hf).1, fun ht => ?_⟩
  case refine_2 =>
    rw [h5 ht]
    rfl
  cases hx : typeErrorAmount body with
  | false =>
    rw [(h4 hx).1]
    decide
  | true =>
    rw [h5 hx]
    decide

/-- C9 witness: an unparseable amount string is answered 400 (never 404)
for an id that is not in the store, and the store is unchanged. -/
theorem update_validation_precedes_lookup_witness :
    (updateExpense 42 (some ⟨some "Rent", some "Home", some AmountVal.badStr, none⟩)
        DB.empty).1.status ≠ 404 ∧
    (updateExpense 42 (some ⟨some "Rent", some "Home", some AmountVal.badStr, none⟩)
        DB.empty).2 = DB.empty ∧
    (typeErrorAmount (some ⟨some "Rent", some "Home", some AmountVal.badStr, none⟩) = false →
      (updateExpense 42 (some ⟨some "Rent", some "Home", some AmountVal.badStr, none⟩)
        DB.empty).1.status = 400) ∧
    (typeErrorAmount (some ⟨some "Rent", some "Home", some AmountVal.badStr, none⟩) = true →
      (updateExpense 42 (some ⟨some "Rent", some "Home", some AmountVal.badStr, none⟩)
        DB.empty).1.status = 500) :=
  update_validation_precedes_lookup DB.empty 42
    (some ⟨some "Rent", some "Home", some AmountVal.badStr, none⟩) (by decide)

/-- C9 counterexample: the claim as stated — an invalid body always yields
400 — is false: an amount of list type yields 500 (on an id absent from the
store; the store is untouched and the answer is still not 404). -/
theorem update_invalid_body_500 :
    badBody (some ⟨some "Rent", some "Home", some AmountVal.other, none⟩) = true ∧
    findById DB.empty.rows 42 = none ∧
    (updateExpense 42 (some ⟨some "Rent", some "Home", some AmountVal.other, none⟩)
        DB.empty).1.status = 500 ∧
    (updateExpense 42 (some ⟨some "Rent", some "Home", some AmountVal.other, none⟩)
        DB.empty).1.clientError = false ∧
    (updateExpense 42 (some ⟨some "Rent", some "Home", some AmountVal.other, none⟩)
        DB.empty).2 = DB.empty :=
  ⟨rfl, rfl, rfl, rfl, rfl⟩

/-- C10: create applies no format validation to `date`: any supplied date
string is stored verbatim and echoed verbatim in the 201 response. -/
theorem create_stores_date_verbatim (db : DB) (now t c d : String)
    (av : AmountVal) (a : ℚ) (ht : t ≠ "") (hc : c ≠ "")
    (hav : parseAmount av = .ok a) (ha : 0 < a) (hd : d ≠ "") :
    addExpense (some ⟨some t, some c, some av, some d⟩) now db =
      (.ok 201 ⟨db.nextId, t, c, a, d⟩,
       ⟨db.rows ++ [⟨db.nextId, t, c, a, d⟩], db.nextId + 1⟩) := by
  simp [addExpense, blank_some_false ht, blank_some_false hc, hav,
    not_le_of_lt ha]

/-- C10 witness: a date string that is not remotely ISO-8601 is stored and
echoed verbatim. -/
theorem create_stores_date_verbatim_witness :
    addExpense (some ⟨some "Lunch", some "Food", some (AmountVal.num 250),
        some "definitely not a date"⟩) "2026-02-01T12:00:00" DB.empty =
      (.ok 201 ⟨1, "Lunch", "Food", 250, "definitely not a date"⟩,
       ⟨[⟨1, "Lunch", "Food", 250, "definitely not a date"⟩], 2⟩) :=
  create_stores_date_verbatim DB.empty "2026-02-01T12:00:00" "Lunch" "Food"
    "definitely not a date" (AmountVal.num 250) 250 (by decide) (by decide)
    rfl (by decide) (by decide)

end ExpenseTracker

